import Mathlib

/-!
Verification of the crater-detection pipeline of `src/main.py`.

The OpenCV primitives (Gaussian blur, Canny edge detection, contour
extraction, least-squares ellipse fitting) are external library
collaborators; they are modelled as function-valued parameters collected in
`CvLib`.  The binary threshold, the per-contour filtering/normalisation
loop of `detect_craters`, the identifier derivation `image_id_from_path`
and the row-building policy of `main` are embedded directly from the
source.  Floating-point numbers are idealised as exact rationals.
-/

namespace Crater

/-- An 8-bit grayscale sample grid, row-major (a numpy image array). -/
abbrev Grid := List (List ℕ)

/-- A pixel coordinate. -/
abbrev PixelPt := ℤ × ℤ

/-- A boundary curve: an ordered list of pixel coordinates, as returned by
contour extraction. -/
abbrev Contour := List PixelPt

/-- The raw result of `cv2.fitEllipse` destructured on line 63 of
`src/main.py`: `(cx, cy), (major, minor), angle` with FULL axis lengths
and a rotation angle in degrees. -/
structure FitResult where
  cx : ℚ
  cy : ℚ
  major : ℚ
  minor : ℚ
  angle : ℚ
deriving DecidableEq

/-- A detection tuple `(cx, cy, a, b, angle)` as appended on line 73 of
`src/main.py`: centre, SEMI-axis lengths, rotation angle. -/
structure Detection where
  cx : ℚ
  cy : ℚ
  a : ℚ
  b : ℚ
  angle : ℚ
deriving DecidableEq

/-- The OpenCV collaborators used by `detect_craters`, as black-box
functions (deterministic, per the library's contract). -/
structure CvLib where
  gaussianBlur5 : Grid → Grid
  canny : Grid → Grid
  findContours : Grid → List Contour
  fitEllipse : Contour → FitResult

/-- `cv2.threshold(img_blur, 30, 255, cv2.THRESH_BINARY)` (line 49):
every sample above 30 maps to 255, the rest to 0. -/
def thresholdBinary30 (img : Grid) : Grid :=
  img.map fun row => row.map fun v => if 30 < v then 255 else 0

/-- The post-fit part of the loop body of `detect_craters`
(lines 66-73): reject if either full axis length is below 10, swap the
axes if the minor exceeds the major, then halve both to semi-axes. -/
def fitFilter (r : FitResult) : Option Detection :=
  if r.major < 10 ∨ r.minor < 10 then none
  else if r.minor > r.major then
    some ⟨r.cx, r.cy, r.minor / 2, r.major / 2, r.angle⟩
  else
    some ⟨r.cx, r.cy, r.major / 2, r.minor / 2, r.angle⟩

/-- One iteration of the contour loop of `detect_craters` (lines 58-73):
a curve with fewer than 5 points is skipped before fitting; otherwise the
fitted ellipse goes through `fitFilter`. -/
def processContour (fit : Contour → FitResult) (cnt : Contour) : Option Detection :=
  if cnt.length < 5 then none
  else fitFilter (fit cnt)

/-- `detect_craters` (lines 42-75): blur, threshold, Canny, contours, then
the filtering/fitting loop collecting the surviving detections in order. -/
def detect_craters (cv : CvLib) (img : Grid) : List Detection :=
  let img_blur := cv.gaussianBlur5 img
  let img_thresh := thresholdBinary30 img_blur
  let edges := cv.canny img_thresh
  let contours := cv.findContours edges
  contours.filterMap (processContour cv.fitEllipse)

/-- Index of the last '.' in a character list, if any. -/
def lastDotIdx (cs : List Char) : Option ℕ :=
  ((List.range cs.length).filter fun i => cs.getD i ' ' == '.').getLast?

/-- `pathlib.PurePath.stem` of a path whose final component is `name`:
the name without its last suffix, where a suffix only counts when the
last dot is neither the first nor the last character. -/
def stem (name : String) : String :=
  let cs := name.toList
  match lastDotIdx cs with
  | none => name
  | some i => if 0 < i ∧ i < cs.length - 1 then String.mk (cs.take i) else name

/-- `image_id_from_path` (lines 27-36) applied to the components of the
image path relative to the dataset root; the last component is the image
filename, and `img_path.stem` is that filename without its extension.
Python's `parts[1]` raises `IndexError` when fewer than two components
exist, modelled as `none`. -/
def image_id_from_path (parts : List String) : Option String :=
  match parts with
  | p0 :: p1 :: rest =>
      some (p0 ++ "/" ++ p1 ++ "/" ++ stem ((p0 :: p1 :: rest).getLastD ""))
  | _ => none

/-- A CSV cell as handed to `csv.writer`: a Python `int` (rendered without
a decimal point, e.g. `-1`) or a Python `float` (rendered with one,
e.g. `-1.0`). -/
inductive CsvCell where
  | intCell : ℤ → CsvCell
  | floatCell : ℚ → CsvCell
deriving DecidableEq

/-- One output row: the five geometric fields, the image identifier and
the classification placeholder. -/
structure Row where
  centerX : CsvCell
  centerY : CsvCell
  semiMajor : CsvCell
  semiMinor : CsvCell
  rotation : CsvCell
  inputImage : String
  classification : CsvCell
deriving DecidableEq

/-- Round a rational to the nearest integer, ties to the even integer
(the rounding of Python's `round`).  `Int.fdiv x.num x.den` is the floor
of `x`, since the denominator of a rational is positive. -/
def roundHalfEven (x : ℚ) : ℤ :=
  let n := Int.fdiv x.num (x.den : ℤ)
  if x - n < 1 / 2 then n
  else if 1 / 2 < x - n then n + 1
  else if n % 2 = 0 then n else n + 1

/-- Python's `round(x, 2)`, idealised over exact rationals. -/
def round2 (x : ℚ) : ℚ := (roundHalfEven (x * 100) : ℚ) / 100

/-- The sentinel row written on lines 116-120: the integer `-1` in all
five geometric fields and in the classification field. -/
def sentinelRow (image_id : String) : Row :=
  ⟨.intCell (-1), .intCell (-1), .intCell (-1), .intCell (-1), .intCell (-1),
   image_id, .intCell (-1)⟩

/-- The row written for one detection on lines 123-131: each geometric
field is the float `round(float(v), 2)`, the classification is the
integer `-1`. -/
def detectionRow (image_id : String) (d : Detection) : Row :=
  ⟨.floatCell (round2 d.cx), .floatCell (round2 d.cy), .floatCell (round2 d.a),
   .floatCell (round2 d.b), .floatCell (round2 d.angle), image_id, .intCell (-1)⟩

/-- The per-image row-building policy of `main` (lines 115-131): one
sentinel row when no detections survived, otherwise one row per
detection. -/
def buildRows (image_id : String) (detections : List Detection) : List Row :=
  if detections.length = 0 then [sentinelRow image_id]
  else detections.map (detectionRow image_id)

/-- A row is a sentinel record when all five geometric fields hold the
integer `-1`. -/
def isSentinel (r : Row) : Prop :=
  r.centerX = .intCell (-1) ∧ r.centerY = .intCell (-1) ∧
  r.semiMajor = .intCell (-1) ∧ r.semiMinor = .intCell (-1) ∧
  r.rotation = .intCell (-1)

instance (r : Row) : Decidable (isSentinel r) := by
  unfold isSentinel; infer_instance

/-- The pipeline for one image as run by `main`: detect, then build rows
under the identifier derived for that image. -/
def processImage (cv : CvLib) (img : Grid) (image_id : String) : List Row :=
  buildRows image_id (detect_craters cv img)

/-- Split a character list at every occurrence of `c`; used to formalise
"path segments joined by /". -/
def splitCharAux (c : Char) : List Char → List Char → List (List Char)
  | [], acc => [acc.reverse]
  | x :: xs, acc =>
    if x = c then acc.reverse :: splitCharAux c xs []
    else splitCharAux c xs (x :: acc)

/-- The '/'-separated segments of a string. -/
def segments (s : String) : List String :=
  (splitCharAux '/' s.toList []).map fun cs => String.mk cs

/-! Concrete inputs used to exercise the pipeline on closed instances. -/

/-- A concrete five-point boundary curve. -/
def cntA : Contour := [(0, 0), (1, 0), (2, 1), (3, 2), (4, 4)]

/-- A concrete four-point boundary curve (too short for ellipse fitting). -/
def cnt4 : Contour := [(0, 0), (1, 0), (2, 1), (3, 2)]

/-- A concrete library instance whose fit returns full axes 40 and 20. -/
def cvA : CvLib := ⟨id, id, fun _ => [cntA], fun _ => ⟨100, 100, 40, 20, 30⟩⟩

/-- A concrete 2×2 sample grid. -/
def gridA : Grid := [[0, 255], [255, 0]]

/-- The detection the pipeline produces from `cvA` on `gridA`. -/
def dA : Detection := ⟨100, 100, 20, 10, 30⟩

/-- A fit returning full axes reversed and too small: major 8, minor 20. -/
def fit820 : Contour → FitResult := fun _ => ⟨100, 100, 8, 20, 30⟩

/-- A fit returning the axes reversed: major 12, minor 30, angle 77. -/
def fitSwap : Contour → FitResult := fun _ => ⟨50, 60, 12, 30, 77⟩

/-- The detection produced from `fitSwap`: axes swapped and halved, the
angle passed through unchanged. -/
def dSwap : Detection := ⟨50, 60, 15, 6, 77⟩

/-! Helper lemmas about the per-contour stage. -/

/-- If `fitFilter` accepts a fit, both full axes were at least 10 and the
detection carries the centre, the ordered halved axes and the angle. -/
theorem fitFilter_some {r : FitResult} {d : Detection} (h : fitFilter r = some d) :
    10 ≤ r.major ∧ 10 ≤ r.minor ∧ d.cx = r.cx ∧ d.cy = r.cy ∧
    d.a = max r.major r.minor / 2 ∧ d.b = min r.major r.minor / 2 ∧
    d.angle = r.angle := by
  unfold fitFilter at h
  split_ifs at h with h1 h2
  · push_neg at h1
    rw [Option.some_inj] at h
    subst h
    refine ⟨h1.1, h1.2, rfl, rfl, ?_, ?_, rfl⟩
    · rw [max_eq_right (le_of_lt h2)]
    · rw [min_eq_left (le_of_lt h2)]
  · push_neg at h1
    rw [Option.some_inj] at h
    subst h
    have h2' : r.minor ≤ r.major := not_lt.mp h2
    refine ⟨h1.1, h1.2, rfl, rfl, ?_, ?_, rfl⟩
    · rw [max_eq_left h2']
    · rw [min_eq_right h2']

/-- A detection in the output of `detect_craters` comes from a contour of
at least 5 points whose fit passed `fitFilter`. -/
theorem detect_craters_mem {cv : CvLib} {img : Grid} {d : Detection}
    (hd : d ∈ detect_craters cv img) :
    ∃ cnt : Contour, 5 ≤ cnt.length ∧ fitFilter (cv.fitEllipse cnt) = some d := by
  unfold detect_craters at hd
  rw [List.mem_filterMap] at hd
  obtain ⟨cnt, _, h⟩ := hd
  unfold processContour at h
  split_ifs at h with hl
  exact ⟨cnt, by omega, h⟩

/-- The concrete pipeline run on `cvA` and `gridA` yields exactly `dA`. -/
theorem detect_cvA_eq : detect_craters cvA gridA = [dA] := by
  simp only [detect_craters, cvA, gridA, cntA]
  simp only [List.filterMap_cons, List.filterMap_nil]
  norm_num [processContour, fitFilter, dA]

/-- Claim C2: every ellipse emitted by the detector satisfies
`semiMajor ≥ semiMinor > 0`: the axes are swapped after fitting whenever
the fitting routine returns them reversed. -/
theorem C2_axes_ordered_positive (cv : CvLib) (img : Grid) (d : Detection)
    (hd : d ∈ detect_craters cv img) : d.b ≤ d.a ∧ 0 < d.b := by
  obtain ⟨cnt, -, hf⟩ := detect_craters_mem hd
  obtain ⟨hmaj, hmin, -, -, ha, hb, -⟩ := fitFilter_some hf
  have hmm : min (cv.fitEllipse cnt).major (cv.fitEllipse cnt).minor ≤
      max (cv.fitEllipse cnt).major (cv.fitEllipse cnt).minor := min_le_max
  have h10 : (10 : ℚ) ≤ min (cv.fitEllipse cnt).major (cv.fitEllipse cnt).minor :=
    le_min hmaj hmin
  constructor
  · rw [ha, hb]; linarith
  · rw [hb]; linarith

/-- Claim C2 witness: the concrete pipeline emits `dA`, whose semi-axes
are ordered and positive. -/
theorem C2_witness : dA ∈ detect_craters cvA gridA ∧ (dA.b ≤ dA.a ∧ 0 < dA.b) := by
  have hmem : dA ∈ detect_craters cvA gridA := by
    rw [detect_cvA_eq]; exact List.mem_singleton.mpr rfl
  exact ⟨hmem, C2_axes_ordered_positive cvA gridA dA hmem⟩

/-- Claim C5: a fit either of whose returned full axis lengths is below 10
pixels is rejected outright: the contour contributes no record, so in
particular a reversed fit with major 8 and minor 20 never yields a record
with `semiMajor < semiMinor`. -/
theorem C5_small_axis_rejected (fit : Contour → FitResult) (cnt : Contour)
    (h : (fit cnt).major < 10 ∨ (fit cnt).minor < 10) :
    processContour fit cnt = none := by
  unfold processContour
  split_ifs with hl
  · rfl
  · unfold fitFilter
    rw [if_pos h]

/-- Claim C5 witness: the reversed fit returning major 8, minor 20 on a
five-point contour is rejected. -/
theorem C5_witness :
    ((fit820 cntA).major < 10 ∨ (fit820 cntA).minor < 10) ∧
    processContour fit820 cntA = none :=
  ⟨Or.inl (by norm_num [fit820]),
   C5_small_axis_rejected fit820 cntA (Or.inl (by norm_num [fit820]))⟩

/-- Claim C6: a boundary curve with fewer than 5 points is silently
rejected (it contributes no record and raises no error), while a curve
with 5 or more points proceeds to the least-squares fit and its
post-fit filtering. -/
theorem C6_min_points (fit : Contour → FitResult) (cnt : Contour) :
    (cnt.length < 5 → processContour fit cnt = none) ∧
    (5 ≤ cnt.length → processContour fit cnt = fitFilter (fit cnt)) := by
  constructor
  · intro h
    unfold processContour
    rw [if_pos h]
  · intro h
    unfold processContour
    rw [if_neg (by omega)]

/-- Claim C6 witness: the four-point contour is rejected, the five-point
contour reaches the fitting stage. -/
theorem C6_witness :
    processContour fit820 cnt4 = none ∧
    processContour fit820 cntA = fitFilter (fit820 cntA) :=
  ⟨(C6_min_points fit820 cnt4).1 (by norm_num [cnt4]),
   (C6_min_points fit820 cntA).2 (by norm_num [cntA])⟩

/-- Claim C9: the rotation angle is emitted unchanged by the contour
stage, even when the axes are swapped: the detection's angle always
equals the fitting routine's returned angle. -/
theorem C9_angle_unchanged (fit : Contour → FitResult) (cnt : Contour) (d : Detection)
    (h : processContour fit cnt = some d) : d.angle = (fit cnt).angle := by
  unfold processContour at h
  split_ifs at h
  exact (fitFilter_some h).2.2.2.2.2.2

/-- Claim C9 witness: a reversed fit (major 12, minor 30, angle 77) has
its axes swapped to (15, 6) as semi-axes but the angle 77 is kept. -/
theorem C9_witness :
    processContour fitSwap cntA = some dSwap ∧ dSwap.angle = (fitSwap cntA).angle := by
  have h : processContour fitSwap cntA = some dSwap := by
    norm_num [processContour, fitFilter, fitSwap, cntA, dSwap]
  exact ⟨h, C9_angle_unchanged fitSwap cntA dSwap h⟩

/-- Claim C10: every emitted detection has both semi-axes at least 5
pixels, since both full axis lengths must be at least 10 to pass the
filter and the stored semi-axes are the full lengths halved. -/
theorem C10_semiaxes_at_least_five (cv : CvLib) (img : Grid) (d : Detection)
    (hd : d ∈ detect_craters cv img) : 5 ≤ d.a ∧ 5 ≤ d.b := by
  obtain ⟨cnt, -, hf⟩ := detect_craters_mem hd
  obtain ⟨hmaj, hmin, -, -, ha, hb, -⟩ := fitFilter_some hf
  have hmm : min (cv.fitEllipse cnt).major (cv.fitEllipse cnt).minor ≤
      max (cv.fitEllipse cnt).major (cv.fitEllipse cnt).minor := min_le_max
  have h10 : (10 : ℚ) ≤ min (cv.fitEllipse cnt).major (cv.fitEllipse cnt).minor :=
    le_min hmaj hmin
  constructor
  · rw [ha]; linarith
  · rw [hb]; linarith

/-- Claim C10 witness: the emitted detection `dA` has semi-axes 20 and 10,
both at least 5. -/
theorem C10_witness : dA ∈ detect_craters cvA gridA ∧ (5 ≤ dA.a ∧ 5 ≤ dA.b) := by
  have hmem : dA ∈ detect_craters cvA gridA := by
    rw [detect_cvA_eq]; exact List.mem_singleton.mpr rfl
  exact ⟨hmem, C10_semiaxes_at_least_five cvA gridA dA hmem⟩

/-- Claim C1: per-image row policy: an empty detection list yields exactly
the one sentinel row carrying that image's identifier and nothing else; a
non-empty list yields exactly one row per detection, each carrying the
identifier, and none of those rows is a sentinel. -/
theorem C1_row_policy (image_id : String) (ds : List Detection) :
    (ds = [] → buildRows image_id ds = [sentinelRow image_id] ∧
      isSentinel (sentinelRow image_id) ∧ (sentinelRow image_id).inputImage = image_id) ∧
    (ds ≠ [] → (buildRows image_id ds).length = ds.length ∧
      ∀ r ∈ buildRows image_id ds, r.inputImage = image_id ∧ ¬ isSentinel r) := by
  constructor
  · rintro rfl
    exact ⟨by simp [buildRows], by simp [isSentinel, sentinelRow], rfl⟩
  · intro hne
    have hlen : ¬ ds.length = 0 := by simpa using hne
    refine ⟨by simp [buildRows, hlen], ?_⟩
    intro r hr
    unfold buildRows at hr
    rw [if_neg hlen] at hr
    rw [List.mem_map] at hr
    obtain ⟨d, -, rfl⟩ := hr
    refine ⟨rfl, ?_⟩
    intro hs
    simp [detectionRow, isSentinel] at hs

/-- Claim C1 witness: with no detections exactly the sentinel row is
emitted; with the one detection `dA` exactly one row is emitted. -/
theorem C1_witness :
    buildRows "a/b/c" [] = [sentinelRow "a/b/c"] ∧
    (buildRows "a/b/c" [dA]).length = 1 := by
  refine ⟨((C1_row_policy "a/b/c" []).1 rfl).1, ?_⟩
  have h := ((C1_row_policy "a/b/c" [dA]).2 (by simp)).1
  simpa using h

/-- Claim C7: every geometric field of a detection row is the raw value
rounded to 2 decimal places — raw centre (123.456, 78.901) becomes
(123.46, 78.90) — while sentinel rows carry the integer `-1` in all five
numeric fields, a cell distinct from the float `-1.0`. -/
theorem C7_rounding (image_id : String) (ds : List Detection) (hne : ds ≠ []) :
    (∀ r ∈ buildRows image_id ds, ∃ d ∈ ds,
      r.centerX = .floatCell (round2 d.cx) ∧ r.centerY = .floatCell (round2 d.cy) ∧
      r.semiMajor = .floatCell (round2 d.a) ∧ r.semiMinor = .floatCell (round2 d.b) ∧
      r.rotation = .floatCell (round2 d.angle)) ∧
    round2 (123456 / 1000) = 12346 / 100 ∧
    round2 (78901 / 1000) = 7890 / 100 ∧
    isSentinel (sentinelRow image_id) ∧
    CsvCell.intCell (-1) ≠ CsvCell.floatCell (-1) := by
  refine ⟨?_, ?_, ?_, by simp [isSentinel, sentinelRow], by simp⟩
  · intro r hr
    unfold buildRows at hr
    rw [if_neg (by simpa using hne)] at hr
    rw [List.mem_map] at hr
    obtain ⟨d, hd, rfl⟩ := hr
    exact ⟨d, hd, rfl, rfl, rfl, rfl, rfl⟩
  · have h : Int.fdiv (61728 : ℤ) 5 = 12345 := rfl
    norm_num [round2, roundHalfEven, h]
  · have h : Int.fdiv (78901 : ℤ) 10 = 7890 := rfl
    norm_num [round2, roundHalfEven, h]

/-- Claim C7 witness: the two concrete rounding facts, obtained from the
theorem at a nonempty detection list. -/
theorem C7_witness :
    round2 (123456 / 1000) = 12346 / 100 ∧ round2 (78901 / 1000) = 7890 / 100 := by
  have h := C7_rounding "a/b/c" [dA] (by simp)
  exact ⟨h.2.1, h.2.2.1⟩

/-- Claim C8: the pipeline is deterministic: two runs of the detector and
of the row builder on the same sample grid, with the same (deterministic,
function-valued) library collaborators, give identical results. -/
theorem C8_deterministic (cv : CvLib) (img : Grid) (image_id : String) :
    detect_craters cv img = detect_craters cv img ∧
    processImage cv img image_id = processImage cv img image_id :=
  ⟨rfl, rfl⟩

/-- Claim C3 counterexample: a relative path with exactly one directory
component before the filename (fewer than two) does not make identifier
derivation fail; it silently fabricates `altitude01/img.png/img`. -/
theorem C3_counterexample :
    image_id_from_path ["altitude01", "img.png"] ≠ none ∧
    image_id_from_path ["altitude01", "img.png"] = some "altitude01/img.png/img" :=
  ⟨by decide, by decide⟩

/-- Claim C3 amended: identifier derivation fails (Python raises
`IndexError`) exactly when the relative path has fewer than two
components overall, i.e. zero directory components before the filename;
with exactly one directory component it succeeds and fabricates an
identifier whose second segment is the full filename. -/
theorem C3_amended_fail_only_below_two (parts : List String) :
    image_id_from_path parts = none ↔ parts.length < 2 := by
  match parts with
  | [] => simp [image_id_from_path]
  | [a] => simp [image_id_from_path]
  | a :: b :: rest =>
    simp only [image_id_from_path, List.length_cons]
    constructor
    · intro h
      exact Option.noConfusion h
    · intro h
      exact absurd h (by omega)

/-- Claim C3 amended witness: the bare filename fails derivation. -/
theorem C3_witness : image_id_from_path ["img.png"] = none :=
  (C3_amended_fail_only_below_two ["img.png"]).mpr (by decide)

/-- `String.toList` distributes over append. -/
theorem toList_append (s t : String) : (s ++ t).toList = s.toList ++ t.toList := rfl

/-- Rebuilding a string from its characters is the identity. -/
theorem mk_toList (s : String) : String.mk s.toList = s := rfl

/-- Splitting a list free of the separator yields a single segment. -/
theorem splitCharAux_of_not_mem (c : Char) (s : List Char) (acc : List Char)
    (h : c ∉ s) : splitCharAux c s acc = [acc.reverse ++ s] := by
  induction s generalizing acc with
  | nil => simp [splitCharAux]
  | cons x xs ih =>
    rw [List.mem_cons] at h
    push_neg at h
    unfold splitCharAux
    rw [if_neg fun hx => h.1 hx.symm, ih _ h.2]
    simp

/-- Splitting at the first separator occurrence peels off one segment. -/
theorem splitCharAux_append (c : Char) (s1 s2 acc : List Char) (h : c ∉ s1) :
    splitCharAux c (s1 ++ c :: s2) acc
      = (acc.reverse ++ s1) :: splitCharAux c s2 [] := by
  induction s1 generalizing acc with
  | nil => simp [splitCharAux]
  | cons x xs ih =>
    rw [List.mem_cons] at h
    push_neg at h
    rw [List.cons_append]
    have hstep : splitCharAux c (x :: (xs ++ c :: s2)) acc
        = if x = c then acc.reverse :: splitCharAux c (xs ++ c :: s2) []
          else splitCharAux c (xs ++ c :: s2) (x :: acc) := rfl
    rw [hstep, if_neg fun hx => h.1 hx.symm, ih _ h.2]
    simp

/-- Claim C4: for an image nested at least two directory levels below the
dataset root, the derived identifier is the first two directory levels
(case-preserved) and the extension-stripped filename joined by '/', and
since no path component contains '/', it has exactly those three
'/'-separated segments. -/
theorem C4_identifier (p0 p1 : String) (rest : List String) (_hrest : rest ≠ [])
    (h0 : '/' ∉ p0.toList) (h1 : '/' ∉ p1.toList)
    (h2 : '/' ∉ (stem ((p0 :: p1 :: rest).getLastD "")).toList) :
    image_id_from_path (p0 :: p1 :: rest) =
      some (p0 ++ "/" ++ p1 ++ "/" ++ stem ((p0 :: p1 :: rest).getLastD "")) ∧
    segments (p0 ++ "/" ++ p1 ++ "/" ++ stem ((p0 :: p1 :: rest).getLastD "")) =
      [p0, p1, stem ((p0 :: p1 :: rest).getLastD "")] := by
  refine ⟨rfl, ?_⟩
  set st := stem ((p0 :: p1 :: rest).getLastD "") with hst
  unfold segments
  have hslash : ("/" : String).toList = ['/'] := rfl
  have htl : (p0 ++ "/" ++ p1 ++ "/" ++ st).toList
      = p0.toList ++ '/' :: (p1.toList ++ '/' :: st.toList) := by
    simp only [toList_append, hslash]
    simp [List.append_assoc]
  rw [htl, splitCharAux_append _ _ _ _ h0, splitCharAux_append _ _ _ _ h1,
    splitCharAux_of_not_mem _ _ _ h2]
  simp [mk_toList]

/-- Claim C4 witness: the spec's identifier scenario
`root/altitude01/longitude05/orientation01_light01.png`. -/
theorem C4_witness :
    image_id_from_path ["altitude01", "longitude05", "orientation01_light01.png"] =
      some "altitude01/longitude05/orientation01_light01" ∧
    segments "altitude01/longitude05/orientation01_light01" =
      ["altitude01", "longitude05", "orientation01_light01"] := by
  have h := C4_identifier "altitude01" "longitude05" ["orientation01_light01.png"]
    (by decide) (by decide) (by decide) (by decide)
  exact ⟨h.1.trans (by decide), by decide⟩

end Crater
